import Mathlib

/-!
Verification development for the `time_game` repository.

This file gives a shallow embedding of the instanced-draw aggregation code of
the repository (`src/graphics/textured_pipeline.rs`, `src/graphics/mod.rs`,
`src/graphics/debug.rs`, `src/graphics/camera.rs`) and proves properties of it.

Modelling conventions:
 - `f32` scalars are modelled by an abstract commutative ring `R`
   (instantiated with `ℚ` in concrete evaluations); the real-valued
   trigonometric functions used by `cgmath::Matrix3::from_angle_z` are
   abstracted as parameters `rcos rsin : R → R`.
 - A Rust panic (a failed `assert!` or an out-of-bounds `self.models[i]`
   index) is modelled by `Option.none`; normal return by `some`.
 - GPU device objects (`wgpu::Buffer`, `wgpu::Queue`) are modelled by their
   observable effect: each `queue.write_buffer(buffer, offset, data)` call on
   a model's instance buffer is logged in that model's `writes` trace as an
   `(offset, payload)` pair.
 - `u32`/`usize` counters are modelled by `Nat` (no arithmetic that could
   overflow a `u32` occurs in the modelled code paths).
 - cgmath matrices are column-major in storage but denote the usual
   mathematical linear maps; we embed them as `Matrix (Fin n) (Fin n) R` in
   the standard row-major mathematical convention, with `*` the ordinary
   matrix product, matching cgmath's `Mul`.
-/

namespace TimeGame

variable {R : Type} [CommRing R]

/-! ### cgmath matrix constructors (2D, 3×3 homogeneous) -/

/-- `cgmath::Matrix3::from_translation(v)`: identity with the translation
vector in the last column. -/
def mat3FromTranslation (p : R × R) : Matrix (Fin 3) (Fin 3) R :=
  !![1, 0, p.1; 0, 1, p.2; 0, 0, 1]

/-- `cgmath::Matrix3::from_angle_z(theta)`: rotation about the z axis,
with the cosine and sine functions abstracted as `rcos`, `rsin`. -/
def mat3FromAngleZ (rcos rsin : R → R) (theta : R) : Matrix (Fin 3) (Fin 3) R :=
  !![rcos theta, -(rsin theta), 0; rsin theta, rcos theta, 0; 0, 0, 1]

/-- `cgmath::Matrix3::from_nonuniform_scale(x, y)`: `diag(x, y, 1)`. -/
def mat3FromNonuniformScale (x y : R) : Matrix (Fin 3) (Fin 3) R :=
  !![x, 0, 0; 0, y, 0; 0, 0, 1]

/-! ### cgmath matrix constructors (3D, 4×4 homogeneous) -/

/-- `cgmath::Matrix4::from_translation(v)`. -/
def mat4FromTranslation (p : R × R × R) : Matrix (Fin 4) (Fin 4) R :=
  !![1, 0, 0, p.1; 0, 1, 0, p.2.1; 0, 0, 1, p.2.2; 0, 0, 0, 1]

/-- A quaternion as in `cgmath::Quaternion { s, v: Vector3 { x, y, z } }`. -/
structure Quat (R : Type) where
  s : R
  x : R
  y : R
  z : R

/-- `cgmath`'s `impl From<Quaternion<S>> for Matrix4<S>`: with
`x2 = x + x`, `y2 = y + y`, `z2 = z + z`, the rotation block has rows
`[1 - y2*y - z2*z, x2*y - z2*s, x2*z + y2*s]`,
`[x2*y + z2*s, 1 - x2*x - z2*z, y2*z - x2*s]`,
`[x2*z - y2*s, y2*z + x2*s, 1 - x2*x - y2*y]`
(cgmath lists the transposed columns), with identity last row and column. -/
def mat4FromQuat (q : Quat R) : Matrix (Fin 4) (Fin 4) R :=
  !![1 - (q.y + q.y) * q.y - (q.z + q.z) * q.z,
     (q.x + q.x) * q.y - (q.z + q.z) * q.s,
     (q.x + q.x) * q.z + (q.y + q.y) * q.s, 0;
     (q.x + q.x) * q.y + (q.z + q.z) * q.s,
     1 - (q.x + q.x) * q.x - (q.z + q.z) * q.z,
     (q.y + q.y) * q.z - (q.x + q.x) * q.s, 0;
     (q.x + q.x) * q.z - (q.y + q.y) * q.s,
     (q.y + q.y) * q.z + (q.x + q.x) * q.s,
     1 - (q.x + q.x) * q.x - (q.y + q.y) * q.y, 0;
     0, 0, 0, 1]

/-- `cgmath::Matrix4::from_nonuniform_scale(x, y, z)`: `diag(x, y, z, 1)`. -/
def mat4FromNonuniformScale (x y z : R) : Matrix (Fin 4) (Fin 4) R :=
  !![x, 0, 0, 0; 0, y, 0, 0; 0, 0, z, 0; 0, 0, 0, 1]

/-! ### Instance records and their raw GPU encodings -/

/-- `TexturedInstance` of `textured_pipeline.rs` (the identically defined
`Instance2D` of `mod.rs` and `Instance` of `debug.rs` share this model):
2D position, non-uniform scale, rotation angle in radians. -/
structure TexturedInstance (R : Type) where
  position : R × R
  scale : R × R
  rotation : R

/-- `TexturedInstance::to_raw` (and the byte-identical `Instance2D::to_raw`,
`debug::Instance::to_raw`): the 3×3 model matrix
`Matrix3::from_translation(position) * Matrix3::from_angle_z(rotation)
 * Matrix3::from_nonuniform_scale(scale.x, scale.y)`. -/
def TexturedInstance.to_raw (rcos rsin : R → R) (i : TexturedInstance R) :
    Matrix (Fin 3) (Fin 3) R :=
  mat3FromTranslation i.position * mat3FromAngleZ rcos rsin i.rotation *
    mat3FromNonuniformScale i.scale.1 i.scale.2

/-- `Instance` of `mod.rs`: 3D position, non-uniform scale, quaternion
rotation. -/
structure Instance3 (R : Type) where
  position : R × R × R
  scale : R × R × R
  rotation : Quat R

/-- `Instance::to_raw` of `mod.rs`: the 4×4 model matrix
`Matrix4::from_translation(position) * Matrix4::from(rotation)
 * Matrix4::from_nonuniform_scale(scale.x, scale.y, scale.z)`. -/
def Instance3.to_raw (i : Instance3 R) : Matrix (Fin 4) (Fin 4) R :=
  mat4FromTranslation i.position * mat4FromQuat i.rotation *
    mat4FromNonuniformScale i.scale.1 i.scale.2.1 i.scale.2.2

/-- `mem::size_of::<InstanceRaw>()` for the 2D pipelines: a `[[f32; 3]; 3]`
is nine 4-byte floats, 36 bytes. -/
def instanceRawSize : Nat := 36

/-! ### The per-model draw bucket (`struct Model` of `textured_pipeline.rs`) -/

/-- `struct Model`: vertex/index counts, the instance buffer (modelled by its
trace of `queue.write_buffer` calls as `(byte offset, payload)` pairs), the
live instance count, and the fixed capacity. -/
structure Model (R : Type) where
  num_vertices : Nat
  num_indices : Nat
  writes : List (Nat × Matrix (Fin 3) (Fin 3) R)
  num_instances : Nat
  max_instances : Nat

/-- `draw_count()` in the specification's vocabulary: the live instance
count `num_instances` of a bucket. -/
def Model.drawCount (m : Model R) : Nat := m.num_instances

/-- The body of `TexturedPipeline::add_instance` once the model has been
found: `assert!(num_instances < max_instances)` (panic modelled as `none`),
then `queue.write_buffer(instance_buffer, num_instances * size_of::<InstanceRaw>(),
instance.to_raw())`, then `num_instances += 1`. -/
def Model.append (rcos rsin : R → R) (m : Model R) (inst : TexturedInstance R) :
    Option (Model R) :=
  if m.num_instances < m.max_instances then
    some { m with
      writes := m.writes ++ [(m.num_instances * instanceRawSize, inst.to_raw rcos rsin)],
      num_instances := m.num_instances + 1 }
  else
    none

/-- `TexturedPipeline::add_instance(models, queue, model_index, instance)`:
`if let Some(model) = models.get_mut(model_index) { ... }` — a silent no-op
when the index is out of range, otherwise the asserted append above. -/
def addInstance (rcos rsin : R → R) (models : List (Model R)) (model_index : Nat)
    (inst : TexturedInstance R) : Option (List (Model R)) :=
  match models[model_index]? with
  | none => some models
  | some m => (m.append rcos rsin inst).map (fun m' => models.set model_index m')

/-- A sequence of `add_instance` calls on the same model index (the loop body
of `TexturedPipeline::render` performs exactly this). A panic anywhere
propagates. -/
def addInstances (rcos rsin : R → R) (models : List (Model R)) (model_index : Nat) :
    List (TexturedInstance R) → Option (List (Model R))
  | [] => some models
  | i :: rest =>
    (addInstance rcos rsin models model_index i).bind
      (fun ms => addInstances rcos rsin ms model_index rest)

/-- Iterated `Model.append` (the single-bucket view of `addInstances`). -/
def Model.appendAll (rcos rsin : R → R) (m : Model R) :
    List (TexturedInstance R) → Option (Model R)
  | [] => some m
  | i :: rest => (m.append rcos rsin i).bind (fun m' => m'.appendAll rcos rsin rest)

/-! ### The textured-quad layering pipeline -/

/-- `const MAX_QUADS: usize = 1024`. -/
def MAX_QUADS : Nat := 1024

/-- `TexturedQuad`: position, dimensions, integer layer (`u32`). -/
structure TexturedQuad (R : Type) where
  position : R × R
  dimensions : R × R
  layer : Nat

/-- The sort key relation of `self.textured_quads.sort_by_key(|k| k.layer)`. -/
def layerLE (a b : TexturedQuad R) : Prop := a.layer ≤ b.layer

instance : DecidableRel (layerLE (R := R)) := fun a b => Nat.decLe a.layer b.layer

instance : IsTotal (TexturedQuad R) layerLE := ⟨fun a b => Nat.le_total a.layer b.layer⟩

instance : IsTrans (TexturedQuad R) layerLE := ⟨fun _ _ _ => Nat.le_trans⟩

/-- `self.textured_quads.sort_by_key(|k| k.layer)`: Rust's `sort_by_key` is a
stable sort by the key, embedded as insertion sort by `layerLE` (stable sorts
by a given key agree on all inputs, so any stable algorithm is a faithful
model). -/
def sortQuads (l : List (TexturedQuad R)) : List (TexturedQuad R) :=
  List.insertionSort layerLE l

/-- The instance record built for each quad inside `TexturedPipeline::render`:
`TexturedInstance { position: quad.position, scale: quad.dimensions,
rotation: cgmath::Rad(0.0) }`. -/
def quadToInstance (q : TexturedQuad R) : TexturedInstance R :=
  { position := q.position, scale := q.dimensions, rotation := 0 }

/-- One recorded `render_pass.draw_indexed(index_start..index_end, base_vertex,
instance_start..instance_end)` call. -/
structure DrawCall where
  index_start : Nat
  index_end : Nat
  base_vertex : Nat
  instance_start : Nat
  instance_end : Nat
deriving DecidableEq

/-- `struct TexturedPipeline` (the GPU pipeline/bind-group handles carry no
modelled state). -/
structure TexturedPipeline (R : Type) where
  models : List (Model R)
  quad_index : Nat
  textured_quads : List (TexturedQuad R)

/-- The model-building part of `TexturedPipeline::new`: a single quad model
(4 vertices, `SQUARE_INDICES` of length 6, capacity `MAX_QUADS`, empty
zero-initialized instance buffer), `quad_index = 0`, empty request queue. -/
def TexturedPipeline.new (R : Type) [CommRing R] : TexturedPipeline R :=
  { models := [{ num_vertices := 4, num_indices := 6, writes := [],
                 num_instances := 0, max_instances := MAX_QUADS }],
    quad_index := 0,
    textured_quads := [] }

/-- `TexturedPipeline::push_textured_quad`. -/
def TexturedPipeline.push (p : TexturedPipeline R) (q : TexturedQuad R) :
    TexturedPipeline R :=
  { p with textured_quads := p.textured_quads ++ [q] }

/-- `TexturedPipeline::render`: sort the queued quads by layer in place,
upload each (in sorted order) through `add_instance`, then record one
`draw_indexed(0..num_indices, 0, 0..num_instances)` per model. Returns the
post-render pipeline state and the recorded draw calls. -/
def TexturedPipeline.render (rcos rsin : R → R) (p : TexturedPipeline R) :
    Option (TexturedPipeline R × List DrawCall) :=
  let sorted := sortQuads p.textured_quads
  (addInstances rcos rsin p.models p.quad_index (sorted.map quadToInstance)).map
    (fun models' =>
      ({ p with textured_quads := sorted, models := models' },
       models'.map (fun m => ⟨0, m.num_indices, 0, 0, m.num_instances⟩)))

/-- `TexturedPipeline::clear`: `self.textured_quads.clear()` and
`self.models[self.quad_index].num_instances = 0`; the direct indexing panics
(`none`) when `quad_index` is out of range. Buffers are not deallocated: the
write trace and capacities are retained. -/
def TexturedPipeline.clear (p : TexturedPipeline R) : Option (TexturedPipeline R) :=
  match p.models[p.quad_index]? with
  | none => none
  | some m =>
    some { p with
      textured_quads := [],
      models := p.models.set p.quad_index { m with num_instances := 0 } }

/-! ### The debug overlay (`debug.rs`) -/

/-- `DebugState::MAX_DEBUG_SQUARES`. -/
def MAX_DEBUG_SQUARES : Nat := 1000

/-- `DebugState::MAX_DEBUG_TRIANGLES`. -/
def MAX_DEBUG_TRIANGLES : Nat := 1000

/-- A debug draw bucket (`DebugSquare` / `DebugTriangle`): an instance buffer
(as its write trace) and the live count. -/
structure DebugBucket (R : Type) where
  writes : List (Nat × Matrix (Fin 3) (Fin 3) R)
  num_instances : Nat

/-- `struct DebugState` of `debug.rs`. -/
structure DebugState (R : Type) where
  debug_square : DebugBucket R
  debug_triangle : DebugBucket R

/-- The freshly constructed `DebugState` (both counts zero). -/
def DebugState.new (R : Type) [CommRing R] : DebugState R :=
  { debug_square := { writes := [], num_instances := 0 },
    debug_triangle := { writes := [], num_instances := 0 } }

/-- `DebugState::add_square`: builds the `Instance`, writes its raw matrix at
offset `num_instances * size_of::<InstanceRaw>()` and increments the count.
The source performs no capacity check (`GraphicsState::add_debug_square` in
`mod.rs` is identical in this respect). -/
def DebugState.addSquare (rcos rsin : R → R) (d : DebugState R)
    (position scale : R × R) (rotation : R) : DebugState R :=
  let inst : TexturedInstance R := ⟨position, scale, rotation⟩
  { d with debug_square :=
    { writes := d.debug_square.writes ++
        [(d.debug_square.num_instances * instanceRawSize, inst.to_raw rcos rsin)],
      num_instances := d.debug_square.num_instances + 1 } }

/-- `DebugState::add_triangle`: same shape as `add_square`, no capacity
check. -/
def DebugState.addTriangle (rcos rsin : R → R) (d : DebugState R)
    (position scale : R × R) (rotation : R) : DebugState R :=
  let inst : TexturedInstance R := ⟨position, scale, rotation⟩
  { d with debug_triangle :=
    { writes := d.debug_triangle.writes ++
        [(d.debug_triangle.num_instances * instanceRawSize, inst.to_raw rcos rsin)],
      num_instances := d.debug_triangle.num_instances + 1 } }

/-- `n` consecutive `add_square` calls with fixed arguments. -/
def DebugState.iterSquares (rcos rsin : R → R) (position scale : R × R)
    (rotation : R) (d : DebugState R) : Nat → DebugState R
  | 0 => d
  | n + 1 =>
    (d.iterSquares rcos rsin position scale rotation n).addSquare rcos rsin
      position scale rotation

/-! ### Surface configuration, camera and resize (`mod.rs`, `camera.rs`) -/

/-- The modelled fields of `wgpu::SurfaceConfiguration`. -/
structure SurfaceConfig where
  width : Nat
  height : Nat

/-- `struct Camera` of `camera.rs`. -/
structure Camera (R : Type) where
  eye : R × R × R
  target : R × R × R
  up : R × R × R
  aspect : R
  fovy : R
  znear : R
  zfar : R

/-- The state of `GraphicsState` touched by `resize`: the surface
configuration, the camera, and the depth texture (modelled by the dimensions
it was created with). -/
structure GraphicsState (R : Type) where
  config : SurfaceConfig
  camera : Camera R
  depth_texture_size : Nat × Nat

/-- `GraphicsState::resize(width, height)`: sets `config.width` and
`config.height`, reconfigures the surface, and recreates the depth texture
from the new configuration. No other field is touched. -/
def GraphicsState.resize (g : GraphicsState R) (width height : Nat) :
    GraphicsState R :=
  { g with
    config := { width := width, height := height },
    depth_texture_size := (width, height) }

/-- The camera constructed in `GraphicsState::new` for a surface of the given
size, over `ℚ`: eye `(0, 0, 2)`, target the origin, up `(0, 1, 0)`,
`aspect = config.width as f32 / config.height as f32`, `fovy = 45`,
`znear = 0.1`, `zfar = 100`; the depth texture is created from the
configuration. -/
def initGraphicsState (width height : Nat) : GraphicsState ℚ :=
  { config := { width := width, height := height },
    camera := { eye := (0, 0, 2), target := (0, 0, 0), up := (0, 1, 0),
                aspect := (width : ℚ) / (height : ℚ), fovy := 45,
                znear := 1 / 10, zfar := 100 },
    depth_texture_size := (width, height) }

/-! ## Helper lemmas -/

omit [CommRing R] in
theorem sortQuads_sorted (l : List (TexturedQuad R)) :
    (sortQuads l).Pairwise layerLE :=
  List.sorted_insertionSort layerLE l

omit [CommRing R] in
theorem sortQuads_perm (l : List (TexturedQuad R)) : List.Perm (sortQuads l) l :=
  List.perm_insertionSort layerLE l

omit [CommRing R] in
theorem sortQuads_length (l : List (TexturedQuad R)) :
    (sortQuads l).length = l.length :=
  (sortQuads_perm l).length_eq

omit [CommRing R] in
theorem sortQuads_filter_layer (l : List (TexturedQuad R)) (k : Nat) :
    (sortQuads l).filter (fun q => q.layer == k) = l.filter (fun q => q.layer == k) := by
  have hmem : ∀ q ∈ l.filter (fun q => q.layer == k), q.layer = k := by
    intro q hq
    have hf := List.of_mem_filter hq
    simpa using hf
  have hpw : (l.filter (fun q => q.layer == k)).Pairwise layerLE := by
    refine List.pairwise_of_forall_mem_list ?_
    intro a ha b hb
    unfold layerLE
    rw [hmem a ha, hmem b hb]
  have hsub : List.Sublist (l.filter (fun q => q.layer == k)) (sortQuads l) :=
    List.sublist_insertionSort hpw (List.filter_sublist l)
  have hsub2 : List.Sublist (l.filter (fun q => q.layer == k))
      ((sortQuads l).filter (fun q => q.layer == k)) := by
    have h2 := hsub.filter (fun q => q.layer == k)
    rwa [List.filter_filter,
      show (fun q : TexturedQuad R => (q.layer == k) && (q.layer == k)) =
        (fun q => q.layer == k) by
          funext q; cases hq : q.layer == k <;> simp [hq]] at h2
  have hlen : ((sortQuads l).filter (fun q => q.layer == k)).length =
      (l.filter (fun q => q.layer == k)).length :=
    ((sortQuads_perm l).filter _).length_eq
  exact (hsub2.eq_of_length hlen.symm).symm

theorem list_set_self {α : Type} :
    ∀ (l : List α) (i : Nat) (h : i < l.length), l.set i l[i] = l := by
  intro l
  induction l with
  | nil => simp
  | cons a as ih =>
    intro i h
    cases i with
    | zero => simp
    | succ n => simp [ih n (by simpa using h)]

theorem appendAll_spec (rcos rsin : R → R) :
    ∀ (l : List (TexturedInstance R)) (m : Model R),
      m.num_instances + l.length ≤ m.max_instances →
      m.appendAll rcos rsin l = some
        { m with
          num_instances := m.num_instances + l.length,
          writes := m.writes ++ (List.enumFrom m.num_instances l).map
            (fun e => (e.1 * instanceRawSize, e.2.to_raw rcos rsin)) } := by
  intro l
  induction l with
  | nil =>
    intro m _
    simp [Model.appendAll]
  | cons i rest ih =>
    intro m h
    have hlt : m.num_instances < m.max_instances := by
      simp at h; omega
    have h1 : m.num_instances + 1 + rest.length ≤ m.max_instances := by
      simp at h; omega
    rw [Model.appendAll, Model.append, if_pos hlt, Option.some_bind, ih _ h1]
    simp [List.enumFrom_cons]
    omega

theorem appendAll_append (rcos rsin : R → R) :
    ∀ (l1 l2 : List (TexturedInstance R)) (m : Model R),
      m.appendAll rcos rsin (l1 ++ l2) =
        (m.appendAll rcos rsin l1).bind (fun m2 => m2.appendAll rcos rsin l2) := by
  intro l1
  induction l1 with
  | nil => intro l2 m; simp [Model.appendAll]
  | cons i rest ih =>
    intro l2 m
    rw [List.cons_append, Model.appendAll, Model.appendAll]
    cases hap : Model.append rcos rsin m i with
    | none => simp
    | some m1 => simp [ih l2 m1]

theorem addInstances_eq_appendAll (rcos rsin : R → R) :
    ∀ (l : List (TexturedInstance R)) (models : List (Model R)) (idx : Nat)
      (h : idx < models.length),
      addInstances rcos rsin models idx l =
        (Model.appendAll rcos rsin models[idx] l).map (fun m2 => models.set idx m2) := by
  intro l
  induction l with
  | nil =>
    intro models idx h
    simp [addInstances, Model.appendAll, list_set_self models idx h]
  | cons i rest ih =>
    intro models idx h
    rw [addInstances, Model.appendAll, addInstance, List.getElem?_eq_getElem h]
    dsimp only
    cases hap : Model.append rcos rsin models[idx] i with
    | none => simp
    | some m1 =>
      simp only [Option.map_some', Option.some_bind]
      rw [ih (models.set idx m1) idx (by simpa using h)]
      simp [List.getElem_set_self, List.set_set]

/-! ## Claims -/

set_option maxHeartbeats 1000000 in
/-- C8: the GPU-encoded transform (`TexturedInstance::to_raw`, 3×3, and
`Instance::to_raw` of `mod.rs`, 4×4) is the matrix product of the translation
matrix, the rotation matrix and the non-uniform scale matrix, in that fixed
order (T · R · S): spelled out, the translation column is exactly the
position (unaffected by rotation or scale, as T is leftmost) and the linear
block is the rotation matrix with its columns scaled (as S is rightmost). -/
theorem c8_to_raw_is_translation_mul_rotation_mul_scale :
    (∀ (rcos rsin : R → R) (p s : R × R) (t : R),
      TexturedInstance.to_raw rcos rsin ⟨p, s, t⟩ =
        !![rcos t * s.1, -(rsin t) * s.2, p.1;
           rsin t * s.1, rcos t * s.2, p.2;
           0, 0, 1]) ∧
    (∀ (q : Quat R) (p s : R × R × R),
      Instance3.to_raw ⟨p, s, q⟩ =
        !![(1 - 2 * q.y * q.y - 2 * q.z * q.z) * s.1,
           (2 * q.x * q.y - 2 * q.z * q.s) * s.2.1,
           (2 * q.x * q.z + 2 * q.y * q.s) * s.2.2, p.1;
           (2 * q.x * q.y + 2 * q.z * q.s) * s.1,
           (1 - 2 * q.x * q.x - 2 * q.z * q.z) * s.2.1,
           (2 * q.y * q.z - 2 * q.x * q.s) * s.2.2, p.2.1;
           (2 * q.x * q.z - 2 * q.y * q.s) * s.1,
           (2 * q.y * q.z + 2 * q.x * q.s) * s.2.1,
           (1 - 2 * q.x * q.x - 2 * q.y * q.y) * s.2.2, p.2.2;
           0, 0, 0, 1]) := by
  constructor
  · intro rcos rsin p s t
    ext i j
    fin_cases i <;> fin_cases j <;>
      simp [TexturedInstance.to_raw, mat3FromTranslation, mat3FromAngleZ,
        mat3FromNonuniformScale, Matrix.mul_apply, Fin.sum_univ_succ]
  · intro q p s
    ext i j
    fin_cases i <;> fin_cases j <;>
      simp [Instance3.to_raw, mat4FromTranslation, mat4FromQuat,
        mat4FromNonuniformScale, Matrix.mul_apply, Fin.sum_univ_succ] <;> ring

/-- C2: the render-time sort of the textured-quad queue
(`textured_quads.sort_by_key(|k| k.layer)`, modelled by `sortQuads`) sorts by
ascending layer with a stable sort: the result is pairwise ordered by layer,
is a permutation of the queue, and for every layer value the subsequence of
requests with that layer is exactly the pushed subsequence in push order;
concretely, layers `[3, 1, 2, 1]` pushed in that order sort to
`[1 (first), 1 (second), 2, 3]`. -/
theorem c2_render_sort_is_stable_by_layer :
    (∀ (l : List (TexturedQuad R)), (sortQuads l).Pairwise layerLE) ∧
    (∀ (l : List (TexturedQuad R)), List.Perm (sortQuads l) l) ∧
    (∀ (l : List (TexturedQuad R)) (k : Nat),
      (sortQuads l).filter (fun q => q.layer == k) =
        l.filter (fun q => q.layer == k)) ∧
    sortQuads [(⟨(1, 1), (1, 1), 3⟩ : TexturedQuad R), ⟨(2, 2), (2, 2), 1⟩,
        ⟨(3, 3), (3, 3), 2⟩, ⟨(4, 4), (4, 4), 1⟩] =
      [⟨(2, 2), (2, 2), 1⟩, ⟨(4, 4), (4, 4), 1⟩, ⟨(3, 3), (3, 3), 2⟩,
        ⟨(1, 1), (1, 1), 3⟩] :=
  ⟨fun l => sortQuads_sorted l, fun l => sortQuads_perm l,
   fun l k => sortQuads_filter_layer l k, rfl⟩

/-- C9 counterexample: `GraphicsState::resize` does not update the camera's
aspect-dependent projection. Starting from the state built by
`GraphicsState::new` on a 100×100 surface (camera aspect `100/100 = 1`),
`resize(200, 100)` sets the new surface dimensions but leaves the camera
aspect at `1` instead of the new `200/100 = 2`, so the world-to-screen
mapping is not re-centered. -/
theorem c9_cex_resize_does_not_update_projection :
    ((initGraphicsState 100 100).resize 200 100).config.width = 200 ∧
    ((initGraphicsState 100 100).resize 200 100).config.height = 100 ∧
    ((initGraphicsState 100 100).resize 200 100).camera.aspect ≠
      (200 : ℚ) / (100 : ℚ) := by
  refine ⟨rfl, rfl, ?_⟩
  show (100 : ℚ) / (100 : ℚ) ≠ (200 : ℚ) / (100 : ℚ)
  norm_num

omit [CommRing R] in
/-- C9 (amended): `resize(width, height)` sets the surface configuration's
dimensions to the new width and height and recreates the depth texture from
them, but updates no camera or projection state: the camera (including its
aspect-dependent projection input) is exactly the old camera. -/
theorem c9_resize_sets_config_only (g : GraphicsState R) (width height : Nat) :
    (g.resize width height).config.width = width ∧
    (g.resize width height).config.height = height ∧
    (g.resize width height).depth_texture_size = (width, height) ∧
    (g.resize width height).camera = g.camera :=
  ⟨rfl, rfl, rfl, rfl⟩

/-- C10: `add_instance` with an out-of-range model index
(`models.get_mut(model_index)` returns `None`) is a silent no-op: the models
are returned unchanged (no write, no count change) and no panic occurs. -/
theorem c10_out_of_range_index_is_silent_noop (rcos rsin : R → R)
    (models : List (Model R)) (model_index : Nat) (inst : TexturedInstance R)
    (h : models.length ≤ model_index) :
    addInstance rcos rsin models model_index inst = some models := by
  rw [addInstance, List.getElem?_eq_none h]

/-- C10 witness: a single-model list indexed at 5. -/
theorem c10_witness :
    (1 : Nat) ≤ 5 ∧
    addInstance (fun _ => (1 : ℚ)) (fun _ => 0)
      [{ num_vertices := 4, num_indices := 6, writes := [], num_instances := 0,
         max_instances := 8 }] 5 ⟨(1, 2), (3, 4), 0⟩ =
      some [{ num_vertices := 4, num_indices := 6, writes := [],
              num_instances := 0, max_instances := 8 }] :=
  ⟨by decide,
   c10_out_of_range_index_is_silent_noop (fun _ => (1 : ℚ)) (fun _ => 0)
     [{ num_vertices := 4, num_indices := 6, writes := [], num_instances := 0,
        max_instances := 8 }] 5 ⟨(1, 2), (3, 4), 0⟩ (by decide)⟩

/-- C3: for a sequence of `add_instance` calls on a valid model index of a
fresh bucket, staying within capacity: every successful append increments the
live count by exactly one, and after the sequence `draw_count` equals the
number of calls, with the Nth appended instance's encoded matrix written to
the instance buffer at byte offset `N * size_of::<InstanceRaw>()`. -/
theorem c3_within_capacity_count_and_offsets (rcos rsin : R → R)
    (models : List (Model R)) (model_index : Nat) (l : List (TexturedInstance R))
    (h : model_index < models.length)
    (h0 : models[model_index].num_instances = 0)
    (hw : models[model_index].writes = [])
    (hcap : l.length ≤ models[model_index].max_instances) :
    (∀ (m m2 : Model R) (i : TexturedInstance R),
      Model.append rcos rsin m i = some m2 →
      m2.num_instances = m.num_instances + 1) ∧
    addInstances rcos rsin models model_index l = some (models.set model_index
      { models[model_index] with
        num_instances := l.length,
        writes := l.enum.map
          (fun e => (e.1 * instanceRawSize, e.2.to_raw rcos rsin)) }) := by
  constructor
  · intro m m2 i happ
    rw [Model.append] at happ
    by_cases hc : m.num_instances < m.max_instances
    · rw [if_pos hc] at happ
      cases happ
      rfl
    · rw [if_neg hc] at happ
      cases happ
  · rw [addInstances_eq_appendAll rcos rsin l models model_index h,
      appendAll_spec rcos rsin l models[model_index] (by omega)]
    rw [h0, hw]
    simp [List.enum]

/-- C3 witness: two appends into a fresh capacity-8 bucket over `ℚ`. -/
theorem c3_witness :
    ((0 : Nat) < 1) ∧
    (([({ num_vertices := 4, num_indices := 6, writes := [], num_instances := 0,
          max_instances := 8 } : Model ℚ)])[0].num_instances = 0) ∧
    (([({ num_vertices := 4, num_indices := 6, writes := [], num_instances := 0,
          max_instances := 8 } : Model ℚ)])[0].writes = []) ∧
    (([(⟨(1, 2), (3, 4), 0⟩ : TexturedInstance ℚ), ⟨(5, 6), (7, 8), 9⟩].length ≤
      ([({ num_vertices := 4, num_indices := 6, writes := [], num_instances := 0,
           max_instances := 8 } : Model ℚ)])[0].max_instances)) ∧
    ((∀ (m m2 : Model ℚ) (i : TexturedInstance ℚ),
      Model.append (fun _ => (1 : ℚ)) (fun _ => 0) m i = some m2 →
      m2.num_instances = m.num_instances + 1) ∧
    addInstances (fun _ => (1 : ℚ)) (fun _ => 0)
      [({ num_vertices := 4, num_indices := 6, writes := [], num_instances := 0,
          max_instances := 8 } : Model ℚ)] 0
      [(⟨(1, 2), (3, 4), 0⟩ : TexturedInstance ℚ), ⟨(5, 6), (7, 8), 9⟩] =
      some ([({ num_vertices := 4, num_indices := 6, writes := [],
                num_instances := 0, max_instances := 8 } : Model ℚ)].set 0
        { ([({ num_vertices := 4, num_indices := 6, writes := [],
               num_instances := 0, max_instances := 8 } : Model ℚ)])[0] with
          num_instances :=
            [(⟨(1, 2), (3, 4), 0⟩ : TexturedInstance ℚ), ⟨(5, 6), (7, 8), 9⟩].length,
          writes :=
            [(⟨(1, 2), (3, 4), 0⟩ : TexturedInstance ℚ), ⟨(5, 6), (7, 8), 9⟩].enum.map
              (fun e => (e.1 * instanceRawSize,
                e.2.to_raw (fun _ => (1 : ℚ)) (fun _ => 0))) })) :=
  ⟨by decide, rfl, rfl, by decide,
   c3_within_capacity_count_and_offsets (fun _ => (1 : ℚ)) (fun _ => 0)
     [({ num_vertices := 4, num_indices := 6, writes := [], num_instances := 0,
         max_instances := 8 } : Model ℚ)] 0
     [(⟨(1, 2), (3, 4), 0⟩ : TexturedInstance ℚ), ⟨(5, 6), (7, 8), 9⟩]
     (by decide) rfl rfl (by decide)⟩

/-- C1 counterexample: with a fresh capacity-8 bucket (the capacity used by
`AppState::resumed` for its models), issuing 9 `add_instance` calls in one
frame hits the `assert!` and panics (modelled `none`): no recoverable state —
in particular none with `draw_count` still at capacity — is produced, while
8 calls do succeed. The overflow is a process-terminating assertion, not a
reported recoverable condition. -/
theorem c1_cex_overflow_is_panic_not_recoverable :
    addInstances (fun _ => (1 : ℚ)) (fun _ => 0)
      [({ num_vertices := 4, num_indices := 6, writes := [], num_instances := 0,
          max_instances := 8 } : Model ℚ)] 0
      (List.replicate 9 (⟨(0, 0), (1, 1), 0⟩ : TexturedInstance ℚ)) = none ∧
    (addInstances (fun _ => (1 : ℚ)) (fun _ => 0)
      [({ num_vertices := 4, num_indices := 6, writes := [], num_instances := 0,
          max_instances := 8 } : Model ℚ)] 0
      (List.replicate 8 (⟨(0, 0), (1, 1), 0⟩ : TexturedInstance ℚ))).isSome = true :=
  ⟨rfl, rfl⟩

/-- C1 (amended): appending exactly `capacity` instances to a fresh bucket
succeeds and leaves `draw_count` at `capacity`; the `capacity + 1`-st append
in the same frame fails the `assert!` in `add_instance` — a panic that
terminates the process (modelled `none`), not a reported recoverable
condition. -/
theorem c1_exact_capacity_ok_one_more_panics (rcos rsin : R → R)
    (models : List (Model R)) (model_index : Nat) (l : List (TexturedInstance R))
    (extra : TexturedInstance R)
    (h : model_index < models.length)
    (h0 : models[model_index].num_instances = 0)
    (hlen : l.length = models[model_index].max_instances) :
    (∃ models2, addInstances rcos rsin models model_index l = some models2 ∧
      models2[model_index]?.map Model.drawCount =
        some models[model_index].max_instances) ∧
    addInstances rcos rsin models model_index (l ++ [extra]) = none := by
  have hfull := appendAll_spec rcos rsin l models[model_index] (by omega)
  constructor
  · rw [addInstances_eq_appendAll rcos rsin l models model_index h, hfull]
    refine ⟨_, rfl, ?_⟩
    rw [List.getElem?_set_self (by simpa using h)]
    simp [Model.drawCount, h0, hlen]
  · rw [addInstances_eq_appendAll rcos rsin _ models model_index h,
      appendAll_append, hfull]
    rw [Option.some_bind, Model.appendAll, Model.append]
    rw [if_neg (by simp [h0, hlen])]
    simp

/-- C1 witness: capacity 8, over `ℚ`. -/
theorem c1_witness :
    ((0 : Nat) < 1) ∧
    ((List.replicate 8 (⟨(0, 0), (1, 1), 0⟩ : TexturedInstance ℚ)).length =
      ([({ num_vertices := 4, num_indices := 6, writes := [], num_instances := 0,
           max_instances := 8 } : Model ℚ)])[0].max_instances) ∧
    ((∃ models2, addInstances (fun _ => (1 : ℚ)) (fun _ => 0)
        [({ num_vertices := 4, num_indices := 6, writes := [], num_instances := 0,
            max_instances := 8 } : Model ℚ)] 0
        (List.replicate 8 (⟨(0, 0), (1, 1), 0⟩ : TexturedInstance ℚ)) =
          some models2 ∧
      models2[0]?.map Model.drawCount =
        some ([({ num_vertices := 4, num_indices := 6, writes := [],
                  num_instances := 0, max_instances := 8 } : Model ℚ)])[0].max_instances) ∧
    addInstances (fun _ => (1 : ℚ)) (fun _ => 0)
      [({ num_vertices := 4, num_indices := 6, writes := [], num_instances := 0,
          max_instances := 8 } : Model ℚ)] 0
      (List.replicate 8 (⟨(0, 0), (1, 1), 0⟩ : TexturedInstance ℚ) ++
        [⟨(0, 0), (1, 1), 0⟩]) = none) :=
  ⟨by decide, by decide,
   c1_exact_capacity_ok_one_more_panics (fun _ => (1 : ℚ)) (fun _ => 0)
     [({ num_vertices := 4, num_indices := 6, writes := [], num_instances := 0,
         max_instances := 8 } : Model ℚ)] 0
     (List.replicate 8 (⟨(0, 0), (1, 1), 0⟩ : TexturedInstance ℚ))
     ⟨(0, 0), (1, 1), 0⟩ (by decide) rfl (by decide)⟩

theorem addInstance_length (rcos rsin : R → R) (models models2 : List (Model R))
    (model_index : Nat) (inst : TexturedInstance R)
    (h : addInstance rcos rsin models model_index inst = some models2) :
    models2.length = models.length := by
  rw [addInstance] at h
  cases hidx : models[model_index]? with
  | none =>
    rw [hidx] at h
    cases h
    rfl
  | some m =>
    rw [hidx] at h
    dsimp only at h
    cases happ : Model.append rcos rsin m inst with
    | none => rw [happ] at h; cases h
    | some m1 =>
      rw [happ] at h
      simp only [Option.map_some'] at h
      cases h
      simp

theorem addInstances_length (rcos rsin : R → R) :
    ∀ (l : List (TexturedInstance R)) (models models2 : List (Model R))
      (model_index : Nat),
      addInstances rcos rsin models model_index l = some models2 →
      models2.length = models.length := by
  intro l
  induction l with
  | nil =>
    intro models models2 idx h
    rw [addInstances] at h
    cases h
    rfl
  | cons i rest ih =>
    intro models models2 idx h
    rw [addInstances] at h
    cases hadd : addInstance rcos rsin models idx i with
    | none => rw [hadd] at h; cases h
    | some ms =>
      rw [hadd] at h
      simp only [Option.some_bind] at h
      exact (ih ms models2 idx h).trans
        (addInstance_length rcos rsin models ms idx i hadd)

theorem render_empty_queue (rcos rsin : R → R) (p : TexturedPipeline R)
    (hq : p.textured_quads = []) :
    p.render rcos rsin = some (p, p.models.map
      (fun m => ⟨0, m.num_indices, 0, 0, m.num_instances⟩)) := by
  obtain ⟨models, qi, quads⟩ := p
  dsimp only at hq
  subst hq
  rfl

theorem iterSquares_count (rcos rsin : R → R) (position scale : R × R)
    (rotation : R) (d : DebugState R) :
    ∀ n : Nat,
      (d.iterSquares rcos rsin position scale rotation n).debug_square.num_instances =
        d.debug_square.num_instances + n := by
  intro n
  induction n with
  | zero => rfl
  | succ k ih =>
    rw [DebugState.iterSquares]
    simp only [DebugState.addSquare]
    rw [ih]
    omega

/-- C5 (amended): the textured/model buckets keep the invariant
`num_instances ≤ max_instances` — every `add_instance` that returns preserves
it, and an append on a full bucket fails the assertion (a fatal panic,
modelled `none`) at the violating call. The debug square/triangle appends of
`debug.rs` however perform no capacity check at all: each call unconditionally
increments the count, so those buckets can silently exceed capacity. -/
theorem c5_invariant_checked_only_for_models (rcos rsin : R → R) :
    (∀ (models : List (Model R)) (model_index : Nat) (inst : TexturedInstance R)
      (models2 : List (Model R)),
      (∀ m ∈ models, m.num_instances ≤ m.max_instances) →
      addInstance rcos rsin models model_index inst = some models2 →
      ∀ m ∈ models2, m.num_instances ≤ m.max_instances) ∧
    (∀ (m : Model R) (inst : TexturedInstance R),
      m.max_instances ≤ m.num_instances →
      Model.append rcos rsin m inst = none) ∧
    (∀ (d : DebugState R) (position scale : R × R) (rotation : R),
      (DebugState.addSquare rcos rsin d position scale
        rotation).debug_square.num_instances =
        d.debug_square.num_instances + 1 ∧
      (DebugState.addTriangle rcos rsin d position scale
        rotation).debug_triangle.num_instances =
        d.debug_triangle.num_instances + 1) := by
  refine ⟨?_, ?_, ?_⟩
  · intro models idx inst models2 hinv hadd m hm
    rw [addInstance] at hadd
    cases hidx : models[idx]? with
    | none =>
      rw [hidx] at hadd
      cases hadd
      exact hinv m hm
    | some m0 =>
      rw [hidx] at hadd
      dsimp only at hadd
      cases happ : Model.append rcos rsin m0 inst with
      | none => rw [happ] at hadd; cases hadd
      | some m1 =>
        rw [happ] at hadd
        simp only [Option.map_some'] at hadd
        cases hadd
        rcases List.mem_or_eq_of_mem_set hm with hmem | heq
        · exact hinv m hmem
        · subst heq
          rw [Model.append] at happ
          by_cases hc : m0.num_instances < m0.max_instances
          · rw [if_pos hc] at happ
            cases happ
            exact hc
          · rw [if_neg hc] at happ
            cases happ
  · intro m inst hfull
    rw [Model.append, if_neg (by omega)]
  · intro d position scale rotation
    exact ⟨rfl, rfl⟩

/-- C5 witness: a successful in-capacity append preserving the invariant, and
an append on a full bucket panicking, over `ℚ`. -/
theorem c5_witness :
    (∀ m ∈ [({ num_vertices := 4, num_indices := 6, writes := [],
               num_instances := 0, max_instances := 8 } : Model ℚ)],
      m.num_instances ≤ m.max_instances) ∧
    (addInstance (fun _ => (1 : ℚ)) (fun _ => 0)
      [({ num_vertices := 4, num_indices := 6, writes := [], num_instances := 0,
          max_instances := 8 } : Model ℚ)] 0 ⟨(1, 2), (3, 4), 0⟩ =
      some [({ num_vertices := 4, num_indices := 6,
               writes := [(0 * instanceRawSize,
                 TexturedInstance.to_raw (fun _ => (1 : ℚ)) (fun _ => 0)
                   ⟨(1, 2), (3, 4), 0⟩)],
               num_instances := 1, max_instances := 8 } : Model ℚ)]) ∧
    (∀ m ∈ [({ num_vertices := 4, num_indices := 6,
               writes := [(0 * instanceRawSize,
                 TexturedInstance.to_raw (fun _ => (1 : ℚ)) (fun _ => 0)
                   ⟨(1, 2), (3, 4), 0⟩)],
               num_instances := 1, max_instances := 8 } : Model ℚ)],
      m.num_instances ≤ m.max_instances) ∧
    ((8 : Nat) ≤ 8) ∧
    Model.append (fun _ => (1 : ℚ)) (fun _ => 0)
      ({ num_vertices := 4, num_indices := 6, writes := [], num_instances := 8,
         max_instances := 8 } : Model ℚ) ⟨(1, 2), (3, 4), 0⟩ = none :=
  ⟨by decide, rfl,
   (c5_invariant_checked_only_for_models (fun _ => (1 : ℚ)) (fun _ => 0)).1
     [({ num_vertices := 4, num_indices := 6, writes := [], num_instances := 0,
         max_instances := 8 } : Model ℚ)] 0 ⟨(1, 2), (3, 4), 0⟩
     [({ num_vertices := 4, num_indices := 6,
         writes := [(0 * instanceRawSize,
           TexturedInstance.to_raw (fun _ => (1 : ℚ)) (fun _ => 0)
             ⟨(1, 2), (3, 4), 0⟩)],
         num_instances := 1, max_instances := 8 } : Model ℚ)]
     (by decide) rfl,
   by decide,
   (c5_invariant_checked_only_for_models (fun _ => (1 : ℚ)) (fun _ => 0)).2.1
     ({ num_vertices := 4, num_indices := 6, writes := [], num_instances := 8,
        max_instances := 8 } : Model ℚ) ⟨(1, 2), (3, 4), 0⟩ (by decide)⟩

/-- C5 counterexample: `DebugState::add_square` has no capacity check: after
1001 calls on a fresh debug state the square bucket's live count is 1001,
silently exceeding `MAX_DEBUG_SQUARES = 1000` — no fatal precondition failure
occurred at the violating append (every call returned a state). -/
theorem c5_cex_debug_square_overflows_silently :
    ((DebugState.new ℚ).iterSquares (fun _ => 1) (fun _ => 0) (0, 0) (1, 1) 0
      1001).debug_square.num_instances = 1001 ∧
    ¬ (((DebugState.new ℚ).iterSquares (fun _ => 1) (fun _ => 0) (0, 0) (1, 1) 0
      1001).debug_square.num_instances ≤ MAX_DEBUG_SQUARES) := by
  have hc := iterSquares_count (fun _ => (1 : ℚ)) (fun _ => 0) (0, 0) (1, 1) 0
    (DebugState.new ℚ) 1001
  rw [hc]
  constructor
  · rfl
  · decide

/-- C6: `render` records exactly one instanced draw call per model, and each
call's instance range is `0..draw_count` (with index range `0..num_indices`
and base vertex 0) for that model in the post-upload state. -/
theorem c6_one_instanced_draw_call_per_model (rcos rsin : R → R)
    (p p2 : TexturedPipeline R) (calls : List DrawCall)
    (h : p.render rcos rsin = some (p2, calls)) :
    calls = p2.models.map (fun m => ⟨0, m.num_indices, 0, 0, m.drawCount⟩) ∧
    calls.length = p2.models.length := by
  have hrr : p.render rcos rsin =
      (addInstances rcos rsin p.models p.quad_index
        ((sortQuads p.textured_quads).map quadToInstance)).map
        (fun models2 =>
          (({ p with
                textured_quads := sortQuads p.textured_quads
                models := models2 } : TexturedPipeline R),
           models2.map (fun m =>
             (⟨0, m.num_indices, 0, 0, m.num_instances⟩ : DrawCall)))) := rfl
  rw [hrr] at h
  cases hadd : addInstances rcos rsin p.models p.quad_index
      ((sortQuads p.textured_quads).map quadToInstance) with
  | none => rw [hadd] at h; simp at h
  | some models2 =>
    rw [hadd] at h
    simp only [Option.map_some'] at h
    have h2 := Option.some.inj h
    injection h2 with h3 h4
    constructor
    · rw [← h4, ← h3]
      rfl
    · rw [← h4, ← h3]
      simp

/-- C6 witness: the freshly constructed pipeline (one quad model, zero
instances) renders to exactly one draw call covering `0..0`. -/
theorem c6_witness :
    TexturedPipeline.render (fun _ => (1 : ℚ)) (fun _ => 0)
      (TexturedPipeline.new ℚ) =
      some (TexturedPipeline.new ℚ, [⟨0, 6, 0, 0, 0⟩]) ∧
    (([⟨0, 6, 0, 0, 0⟩] : List DrawCall) =
      (TexturedPipeline.new ℚ).models.map
        (fun m => ⟨0, m.num_indices, 0, 0, m.drawCount⟩) ∧
    ([(⟨0, 6, 0, 0, 0⟩ : DrawCall)]).length =
      (TexturedPipeline.new ℚ).models.length) :=
  ⟨rfl,
   c6_one_instanced_draw_call_per_model (fun _ => (1 : ℚ)) (fun _ => 0)
     (TexturedPipeline.new ℚ) (TexturedPipeline.new ℚ) [⟨0, 6, 0, 0, 0⟩] rfl⟩

/-- C7: when the frame's quads fit in the quad model's capacity (starting from
a fresh bucket), `render` succeeds; the queue ends up sorted, and the quad
model's instance buffer received, in sorted order, one write per quad at
consecutive offsets `N * size_of::<InstanceRaw>()`, each payload the encoding
of an instance whose position is the request's position, whose scale is the
request's dimensions, and whose rotation is fixed at 0 — so the buffer's
physical layout equals the paint order. -/
theorem c7_sorted_requests_encoded_and_uploaded_in_order (rcos rsin : R → R)
    (p : TexturedPipeline R)
    (h : p.quad_index < p.models.length)
    (h0 : p.models[p.quad_index].num_instances = 0)
    (hw : p.models[p.quad_index].writes = [])
    (hcap : p.textured_quads.length ≤ p.models[p.quad_index].max_instances) :
    ∃ (p2 : TexturedPipeline R) (calls : List DrawCall) (m : Model R),
      p.render rcos rsin = some (p2, calls) ∧
      p2.textured_quads = sortQuads p.textured_quads ∧
      p2.models[p.quad_index]? = some m ∧
      m.num_instances = (sortQuads p.textured_quads).length ∧
      m.writes = (sortQuads p.textured_quads).enum.map
        (fun e => (e.1 * instanceRawSize,
          TexturedInstance.to_raw rcos rsin ⟨e.2.position, e.2.dimensions, 0⟩)) := by
  have hcond : p.models[p.quad_index].num_instances +
      ((sortQuads p.textured_quads).map quadToInstance).length ≤
      p.models[p.quad_index].max_instances := by
    rw [List.length_map, sortQuads_length]
    omega
  have hadd := addInstances_eq_appendAll rcos rsin
    ((sortQuads p.textured_quads).map quadToInstance) p.models p.quad_index h
  rw [appendAll_spec rcos rsin _ _ hcond] at hadd
  have hrr : p.render rcos rsin =
      (addInstances rcos rsin p.models p.quad_index
        ((sortQuads p.textured_quads).map quadToInstance)).map
        (fun models2 =>
          (({ p with
                textured_quads := sortQuads p.textured_quads
                models := models2 } : TexturedPipeline R),
           models2.map (fun m =>
             (⟨0, m.num_indices, 0, 0, m.num_instances⟩ : DrawCall)))) := rfl
  rw [hadd] at hrr
  simp only [Option.map_some'] at hrr
  refine ⟨_, _, _, hrr, rfl, List.getElem?_set_self (by simpa using h), ?_, ?_⟩
  · rw [h0, List.length_map, sortQuads_length]
    simp [sortQuads_length]
  · rw [hw, h0]
    rw [List.nil_append, List.enumFrom_map]
    rw [List.map_map]
    rfl

/-- C7 witness: one pushed quad on the fresh pipeline, over `ℚ`. -/
theorem c7_witness :
    ((TexturedPipeline.new ℚ).push ⟨(1, 2), (3, 4), 7⟩).quad_index <
      ((TexturedPipeline.new ℚ).push ⟨(1, 2), (3, 4), 7⟩).models.length ∧
    (((TexturedPipeline.new ℚ).push
        ⟨(1, 2), (3, 4), 7⟩).models[0].num_instances = 0) ∧
    (((TexturedPipeline.new ℚ).push ⟨(1, 2), (3, 4), 7⟩).models[0].writes = []) ∧
    (((TexturedPipeline.new ℚ).push ⟨(1, 2), (3, 4), 7⟩).textured_quads.length ≤
      ((TexturedPipeline.new ℚ).push
        ⟨(1, 2), (3, 4), 7⟩).models[0].max_instances) ∧
    (∃ (p2 : TexturedPipeline ℚ) (calls : List DrawCall) (m : Model ℚ),
      ((TexturedPipeline.new ℚ).push ⟨(1, 2), (3, 4), 7⟩).render
        (fun _ => (1 : ℚ)) (fun _ => 0) = some (p2, calls) ∧
      p2.textured_quads =
        sortQuads ((TexturedPipeline.new ℚ).push
          ⟨(1, 2), (3, 4), 7⟩).textured_quads ∧
      p2.models[((TexturedPipeline.new ℚ).push
        ⟨(1, 2), (3, 4), 7⟩).quad_index]? = some m ∧
      m.num_instances =
        (sortQuads ((TexturedPipeline.new ℚ).push
          ⟨(1, 2), (3, 4), 7⟩).textured_quads).length ∧
      m.writes = (sortQuads ((TexturedPipeline.new ℚ).push
          ⟨(1, 2), (3, 4), 7⟩).textured_quads).enum.map
        (fun e => (e.1 * instanceRawSize,
          TexturedInstance.to_raw (fun _ => (1 : ℚ)) (fun _ => 0)
            ⟨e.2.position, e.2.dimensions, 0⟩))) :=
  ⟨by decide, rfl, rfl, by decide,
   c7_sorted_requests_encoded_and_uploaded_in_order (fun _ => (1 : ℚ))
     (fun _ => 0) ((TexturedPipeline.new ℚ).push ⟨(1, 2), (3, 4), 7⟩)
     (by decide) rfl rfl (by decide)⟩

/-- C4 counterexample: after a frame that pushes one quad, renders and clears,
a second frame with zero pushed requests still records one draw call (the
unconditional per-model `draw_indexed`, with an empty instance range), not
zero draw calls. -/
theorem c4_cex_next_frame_records_one_empty_draw_call :
    (((TexturedPipeline.new ℚ).push ⟨(1, 1), (2, 2), 0⟩).render
        (fun _ => 1) (fun _ => 0)).bind
      (fun res => (res.1.clear).bind (fun p3 =>
        (p3.render (fun _ => 1) (fun _ => 0)).map
          (fun res2 => res2.2.length))) = some 1 ∧
    (1 : Nat) ≠ 0 :=
  ⟨rfl, by decide⟩

/-- C4 (amended): after a render-and-clear cycle the logical request queue is
empty and the quad model's `draw_count` is 0, with the buffers retained (the
cleared bucket keeps its write trace and capacity; only the live count is
reset); a subsequent frame with zero pushed requests renders successfully and
records one `draw_indexed` per model, the quad model's covering the empty
instance range `0..0` (zero instances drawn), rather than zero draw calls. -/
theorem c4_render_clear_resets_counts_keeps_buffers (rcos rsin : R → R)
    (p p2 : TexturedPipeline R) (calls : List DrawCall)
    (h : p.quad_index < p.models.length)
    (hr : p.render rcos rsin = some (p2, calls)) :
    ∃ (p3 : TexturedPipeline R) (m : Model R),
      p2.models[p2.quad_index]? = some m ∧
      p2.clear = some p3 ∧
      p3.textured_quads = [] ∧
      p3.models = p2.models.set p2.quad_index { m with num_instances := 0 } ∧
      p3.render rcos rsin = some (p3, p3.models.map
        (fun mm => (⟨0, mm.num_indices, 0, 0, mm.drawCount⟩ : DrawCall))) ∧
      (p3.models.map
        (fun mm =>
          (⟨0, mm.num_indices, 0, 0, mm.drawCount⟩ : DrawCall)))[p2.quad_index]? =
        some ⟨0, m.num_indices, 0, 0, 0⟩ := by
  have hrr : p.render rcos rsin =
      (addInstances rcos rsin p.models p.quad_index
        ((sortQuads p.textured_quads).map quadToInstance)).map
        (fun models2 =>
          (({ p with
                textured_quads := sortQuads p.textured_quads
                models := models2 } : TexturedPipeline R),
           models2.map (fun m =>
             (⟨0, m.num_indices, 0, 0, m.num_instances⟩ : DrawCall)))) := rfl
  rw [hrr] at hr
  cases hadd : addInstances rcos rsin p.models p.quad_index
      ((sortQuads p.textured_quads).map quadToInstance) with
  | none => rw [hadd] at hr; simp at hr
  | some models2 =>
    rw [hadd] at hr
    simp only [Option.map_some'] at hr
    have h2 := Option.some.inj hr
    injection h2 with h3 h4
    have hlen2 : models2.length = p.models.length :=
      addInstances_length rcos rsin _ p.models models2 p.quad_index hadd
    have hq2 : p2.quad_index < p2.models.length := by
      rw [← h3]
      simpa [hlen2] using h
    have hq2s : p2.quad_index < (p2.models.set p2.quad_index
        { p2.models[p2.quad_index] with num_instances := 0 }).length := by
      simpa using hq2
    have hclear : p2.clear = some { p2 with
        textured_quads := [],
        models := p2.models.set p2.quad_index
          { p2.models[p2.quad_index] with num_instances := 0 } } := by
      rw [TexturedPipeline.clear, List.getElem?_eq_getElem hq2]
    refine ⟨_, p2.models[p2.quad_index], List.getElem?_eq_getElem hq2, hclear,
      rfl, rfl, ?_, ?_⟩
    · exact render_empty_queue rcos rsin _ rfl
    · rw [List.getElem?_map]
      dsimp only
      rw [List.getElem?_set_self hq2]
      rfl

/-- C4 witness: the fresh pipeline rendered, cleared, and re-rendered with no
pushed requests, over `ℚ`. -/
theorem c4_witness :
    ((TexturedPipeline.new ℚ).quad_index < (TexturedPipeline.new ℚ).models.length) ∧
    (TexturedPipeline.render (fun _ => (1 : ℚ)) (fun _ => 0)
      (TexturedPipeline.new ℚ) = some (TexturedPipeline.new ℚ, [⟨0, 6, 0, 0, 0⟩])) ∧
    (∃ (p3 : TexturedPipeline ℚ) (m : Model ℚ),
      (TexturedPipeline.new ℚ).models[(TexturedPipeline.new ℚ).quad_index]? =
        some m ∧
      (TexturedPipeline.new ℚ).clear = some p3 ∧
      p3.textured_quads = [] ∧
      p3.models = (TexturedPipeline.new ℚ).models.set
        (TexturedPipeline.new ℚ).quad_index { m with num_instances := 0 } ∧
      p3.render (fun _ => (1 : ℚ)) (fun _ => 0) = some (p3, p3.models.map
        (fun mm => (⟨0, mm.num_indices, 0, 0, mm.drawCount⟩ : DrawCall))) ∧
      (p3.models.map
        (fun mm => (⟨0, mm.num_indices, 0, 0,
          mm.drawCount⟩ : DrawCall)))[(TexturedPipeline.new ℚ).quad_index]? =
        some ⟨0, m.num_indices, 0, 0, 0⟩) :=
  ⟨by decide, rfl,
   c4_render_clear_resets_counts_keeps_buffers (fun _ => (1 : ℚ)) (fun _ => 0)
     (TexturedPipeline.new ℚ) (TexturedPipeline.new ℚ) [⟨0, 6, 0, 0, 0⟩]
     (by decide) rfl⟩

end TimeGame
